import Mathlib

/-!
Verification of the `Toggler` widget from `src/native/src/widget/toggler.rs`
(the iced GUI toolkit's toggler widget).

The widget's own code is embedded faithfully from the source. Collaborating
framework code that is not part of the given source tree (the `Row` flex
layout solver, `Rectangle::contains`, the renderer backends, the `Hasher`)
is modelled from the specification, with a doc comment saying so on each
such definition.

Geometry in the source uses `f32`; the widget only compares coordinates
with order relations and adds them, so coordinates are modelled with `Int`.
`u16` fields are modelled as `Nat`; the one arithmetic operation the widget
performs on a `u16` (`2 * self.size` in `layout`) carries an explicit
`% 65536`, matching release-mode wrapping semantics of the `u16` multiply.
-/

/-- A point in 2D space (`iced_core::Point`; `f32` coordinates modelled as `Int`). -/
structure Point where
  x : Int
  y : Int
deriving DecidableEq, Repr

/-- An axis-aligned rectangle (`iced_core::Rectangle`). -/
structure Rectangle where
  x : Int
  y : Int
  width : Int
  height : Int
deriving DecidableEq, Repr

/-- Modelled from the spec: `Rectangle::contains` lives outside the given
source tree; the spec describes it as testing whether the cursor position
lies within the bounds. Modelled as the point being within the closed box. -/
def Rectangle.contains (r : Rectangle) (p : Point) : Bool :=
  decide (r.x ≤ p.x) && decide (p.x ≤ r.x + r.width) &&
  decide (r.y ≤ p.y) && decide (p.y ≤ r.y + r.height)

/-- A width/height pair (`iced_core::Size`, coordinates as `Int`). -/
structure Size where
  width : Int
  height : Int
deriving DecidableEq, Repr

/-- The strategy used to fill space in an axis (`iced_core::Length`). -/
inductive Length where
  | Fill : Length
  | FillPortion (factor : Nat) : Length
  | Shrink : Length
  | Units (units : Nat) : Length
deriving DecidableEq, Repr

/-- The horizontal alignment of text (`iced_core::HorizontalAlignment`). -/
inductive HorizontalAlignment where
  | Left : HorizontalAlignment
  | Center : HorizontalAlignment
  | Right : HorizontalAlignment
deriving DecidableEq, Repr

/-- The vertical alignment of text (`iced_core::VerticalAlignment`). -/
inductive VerticalAlignment where
  | Top : VerticalAlignment
  | Center : VerticalAlignment
  | Bottom : VerticalAlignment
deriving DecidableEq, Repr

/-- An opaque color handle: the widget passes `None` for the label color and
never inspects colors. -/
inductive Color where
  | mk : Color
deriving DecidableEq, Repr

/-- The button of a mouse (`iced_native::mouse::Button`). -/
inductive Button where
  | Left : Button
  | Right : Button
  | Middle : Button
  | Other (code : Nat) : Button
deriving DecidableEq, Repr

/-- A mouse event (`iced_native::mouse::Event`). Wheel deltas are modelled
as integer pairs; the widget never inspects them. -/
inductive MouseEvent where
  | CursorEntered : MouseEvent
  | CursorLeft : MouseEvent
  | CursorMoved (position : Point) : MouseEvent
  | ButtonPressed (button : Button) : MouseEvent
  | ButtonReleased (button : Button) : MouseEvent
  | WheelScrolled (deltaX deltaY : Int) : MouseEvent
deriving DecidableEq, Repr

/-- A user interface event (`iced_native::Event`). The keyboard, window and
touch payloads are opaque to the toggler (it matches only on mouse events),
so they are modelled as plain codes. -/
inductive Event where
  | Mouse (e : MouseEvent) : Event
  | Keyboard (code : Nat) : Event
  | Window (code : Nat) : Event
  | Touch (code : Nat) : Event
deriving DecidableEq, Repr

/-- Whether an event was consumed by a widget (`iced_native::event::Status`). -/
inductive Status where
  | Ignored : Status
  | Captured : Status
deriving DecidableEq, Repr

/-- A laid-out node of the layout tree: its bounds and its positioned
children, in order (`iced_native::Layout` / `layout::Node`). -/
structure Node where
  bounds : Rectangle
  children : List Node
deriving Repr

/-- Size limits handed to layout (`iced_native::layout::Limits`). -/
structure Limits where
  min : Size
  max : Size
deriving DecidableEq, Repr

/-- The renderer capabilities the toggler consumes: `self::Renderer`
(`DEFAULT_SIZE`, default style) together with `text::Renderer`
(`default_size`, default font, text measurement). The text measurement
performed inside the external `Row`/`Text` layout is abstracted as a
function from the label, text size, font, width policy and limits to a
measured size (that code is outside the given source tree). -/
structure Renderer (Font Style : Type) where
  DEFAULT_SIZE : Nat
  defaultFont : Font
  defaultStyle : Style
  default_size : Nat
  measureText : String → Nat → Font → Length → Limits → Size

/-- The `Toggler` widget's fields, as declared in the source
(`src/native/src/widget/toggler.rs`, lines 27-38). `u16` fields are `Nat`. -/
structure Toggler (Message Font Style : Type) where
  is_active : Bool
  on_toggle : Bool → Message
  label : String
  width : Length
  size : Nat
  text_size : Option Nat
  text_align : Option HorizontalAlignment
  spacing : Nat
  font : Font
  style : Style

/-- `Toggler::new` (source lines 53-69): stores the given state, callback and
label, and fills every other field with its default. -/
def Toggler.new {Message Font Style : Type} (r : Renderer Font Style)
    (is_active : Bool) (label : String) (f : Bool → Message) :
    Toggler Message Font Style :=
  { is_active := is_active
    on_toggle := f
    label := label
    width := Length.Fill
    size := r.DEFAULT_SIZE
    text_size := none
    text_align := none
    spacing := 0
    font := r.defaultFont
    style := r.defaultStyle }

/-- `Toggler::size` (source lines 74-77). -/
def Toggler.set_size {M F S : Type} (t : Toggler M F S) (size : Nat) : Toggler M F S :=
  { t with size := size }

/-- `Toggler::width` (source lines 82-85). -/
def Toggler.set_width {M F S : Type} (t : Toggler M F S) (width : Length) : Toggler M F S :=
  { t with width := width }

/-- `Toggler::text_size` (source lines 90-93). -/
def Toggler.set_text_size {M F S : Type} (t : Toggler M F S) (text_size : Nat) : Toggler M F S :=
  { t with text_size := some text_size }

/-- `Toggler::text_align` (source lines 98-101). -/
def Toggler.set_text_align {M F S : Type} (t : Toggler M F S) (align : HorizontalAlignment) : Toggler M F S :=
  { t with text_align := some align }

/-- `Toggler::spacing` (source lines 106-109). -/
def Toggler.set_spacing {M F S : Type} (t : Toggler M F S) (spacing : Nat) : Toggler M F S :=
  { t with spacing := spacing }

/-- `Toggler::font` (source lines 115-118). -/
def Toggler.set_font {M F S : Type} (t : Toggler M F S) (font : F) : Toggler M F S :=
  { t with font := font }

/-- `Toggler::style` (source lines 123-126). -/
def Toggler.set_style {M F S : Type} (t : Toggler M F S) (style : S) : Toggler M F S :=
  { t with style := style }

/-- The result of `Toggler::on_event`: the returned `event::Status`, the
message queue after the call (the source receives `messages:
&mut Vec<Message>`), and the widget after the call (the source receives
`&mut self`; the embedding passes the state explicitly). -/
structure EventResult (Message Font Style : Type) where
  status : Status
  messages : List Message
  widget : Toggler Message Font Style

/-- `Toggler::on_event` (source lines 167-190). The `_renderer` and
`_clipboard` parameters of the source are unused by the body and omitted.
On a left-button press inside `layout.bounds()` it pushes
`(self.on_toggle)(!self.is_active)` and captures; otherwise it ignores. -/
def Toggler.on_event {M F S : Type} (t : Toggler M F S) (event : Event)
    (layout : Node) (cursor_position : Point) (messages : List M) :
    EventResult M F S :=
  match event with
  | Event.Mouse (MouseEvent.ButtonPressed Button.Left) =>
      let mouse_over := layout.bounds.contains cursor_position
      if mouse_over then
        { status := Status.Captured
          messages := messages ++ [t.on_toggle (!t.is_active)]
          widget := t }
      else
        { status := Status.Ignored, messages := messages, widget := t }
  | _ => { status := Status.Ignored, messages := messages, widget := t }

/-- `Toggler::layout` (source lines 141-165). The widget builds a `Row` with
two children — the label `Text` and an inner `Row` whose width policy is
`Length::Units(2 * self.size)` and height policy `Length::Units(self.size)`
(source lines 159-163) — and delegates to the external flex solver.
`2 * self.size` is a `u16` multiplication in the source, embedded as
`(2 * t.size) % 65536` (release-mode wrapping semantics).

Modelled from the spec: the `Row` flex layout solver is outside the given
source tree. Per the spec (§4.2) it produces one box per child in order,
center-aligned on the cross axis, separated by `spacing`; a child with
`Units` policies gets exactly those dimensions, the label gets its measured
size, and the row's width follows the widget's `width` policy while its
height is intrinsic. -/
def Toggler.layout {M F S : Type} (r : Renderer F S) (t : Toggler M F S)
    (limits : Limits) : Node :=
  let textSize := t.text_size.getD r.default_size
  let labelSize := r.measureText t.label textSize t.font t.width limits
  let togglerWidth : Nat := (2 * t.size) % 65536
  let height : Int := max labelSize.height (t.size : Int)
  let labelNode : Node :=
    ⟨⟨0, (height - labelSize.height) / 2, labelSize.width, labelSize.height⟩, []⟩
  let togglerNode : Node :=
    ⟨⟨labelSize.width + (t.spacing : Int), (height - (t.size : Int)) / 2,
      (togglerWidth : Int), (t.size : Int)⟩, []⟩
  let totalWidth : Int :=
    match t.width with
    | Length.Fill => limits.max.width
    | Length.FillPortion _ => limits.max.width
    | Length.Shrink => labelSize.width + (t.spacing : Int) + (togglerWidth : Int)
    | Length.Units n => (n : Int)
  ⟨⟨0, 0, totalWidth, height⟩, [labelNode, togglerNode]⟩

/-- A value fed to the layout hasher. Modelled from the spec: the `Hasher`
itself is outside the given source tree; it is modelled as the sequence of
values fed to it, so two hash computations agree exactly when they feed the
same sequence. `typeIdMarker` is `TypeId::of::<Marker>()` for the local
`Marker` type of `hash_layout` — a fixed type-discriminator. -/
inductive HashInput where
  | typeIdMarker : HashInput
  | stringVal (s : String) : HashInput
deriving DecidableEq, Repr

/-- `Toggler::hash_layout` (source lines 231-236): feeds the `Marker` type id
and then the label to the hasher, and nothing else. -/
def Toggler.hash_layout {M F S : Type} (t : Toggler M F S)
    (state : List HashInput) : List HashInput :=
  state ++ [HashInput.typeIdMarker] ++ [HashInput.stringVal t.label]

/-- The renderer output, modelled as a record of the draw calls the widget
makes. Modelled from the spec: the renderer backends (`text::Renderer::draw`
and the toggler `Renderer::draw` implementations) are outside the given
source tree; instantiating the capability trait with an output that records
the arguments of each call makes the widget's delegation observable. The
argument lists mirror the two trait methods exactly. -/
inductive Output (Font Style Defaults : Type) where
  | text (defaults : Defaults) (bounds : Rectangle) (content : String)
      (size : Nat) (font : Font) (color : Option Color)
      (horizontal_alignment : HorizontalAlignment)
      (vertical_alignment : VerticalAlignment) : Output Font Style Defaults
  | toggler (bounds : Rectangle) (is_active : Bool) (is_mouse_over : Bool)
      (label : Output Font Style Defaults) (style : Style) :
      Output Font Style Defaults

/-- `Toggler::draw` (source lines 192-229): reads the first two children of
the layout (each `children.next().unwrap()` panics — modelled as `none` —
when the child is missing), draws the label via the text capability with no
explicit color and vertically centered, computes `is_mouse_over` from the
*outer* bounds, and delegates to the toggler renderer capability with the
toggle-box child's bounds. -/
def Toggler.draw {M F S D : Type} (r : Renderer F S) (t : Toggler M F S)
    (defaults : D) (layout : Node) (cursor_position : Point)
    (_viewport : Rectangle) : Option (Output F S D) :=
  let bounds := layout.bounds
  match layout.children with
  | label_layout :: toggler_layout :: _ =>
      let toggler_bounds := toggler_layout.bounds
      let label := Output.text defaults label_layout.bounds t.label
        (t.text_size.getD r.default_size) t.font none
        (t.text_align.getD HorizontalAlignment.Left) VerticalAlignment.Center
      let is_mouse_over := bounds.contains cursor_position
      some (Output.toggler toggler_bounds t.is_active is_mouse_over label t.style)
  | _ => none

/-- A default node used with `List.getD` when projecting layout children. -/
def defaultNode : Node := ⟨⟨0, 0, 0, 0⟩, []⟩

/-- A concrete renderer instance over trivial font and style types, used to
evaluate the definitions on concrete inputs. -/
def nullRenderer : Renderer Unit Unit :=
  { DEFAULT_SIZE := 20
    defaultFont := ()
    defaultStyle := ()
    default_size := 16
    measureText := fun _ _ _ _ _ => ⟨30, 10⟩ }

/-- Concrete size limits used to evaluate layout on concrete inputs. -/
def demoLimits : Limits := ⟨⟨0, 0⟩, ⟨400, 100⟩⟩

/-- A concrete toggler whose message type is `Bool` and whose callback is the
identity, so the emitted message is the prospective new state itself. -/
def demoToggler : Toggler Bool Unit Unit :=
  Toggler.new nullRenderer false "Dark mode" (fun b => b)

/-- A concrete toggler whose `size` is large enough that `2 * size` overflows
the `u16` range. -/
def bigToggler : Toggler Bool Unit Unit :=
  (Toggler.new nullRenderer false "big" (fun b => b)).set_size 32768

/-- A concrete two-children layout node, as the external layout engine would
hand to `on_event` and `draw`. -/
def twoChildNode : Node :=
  ⟨⟨0, 0, 100, 20⟩, [⟨⟨0, 0, 30, 10⟩, []⟩, ⟨⟨30, 0, 40, 20⟩, []⟩]⟩

/-- A cursor position inside `twoChildNode`'s bounds. -/
def insideCursor : Point := ⟨5, 5⟩

/-- A cursor position outside `twoChildNode`'s bounds. -/
def outsideCursor : Point := ⟨500, 5⟩

/-- C1: a left-button press with the cursor inside the overall bounds invokes
`on_toggle` with `!is_active`, appends exactly that one message, and returns
`Captured`, for either value of `is_active`. -/
theorem on_event_left_press_inside {M F S : Type} (t : Toggler M F S)
    (layout : Node) (cursor : Point) (messages : List M)
    (h : layout.bounds.contains cursor = true) :
    t.on_event (Event.Mouse (MouseEvent.ButtonPressed Button.Left)) layout cursor messages =
      { status := Status.Captured
        messages := messages ++ [t.on_toggle (!t.is_active)]
        widget := t } := by
  simp [Toggler.on_event, h]

/-- Witness for C1: pressing the concrete toggler (initially off, identity
callback) inside bounds enqueues exactly the message `true` and captures. -/
theorem on_event_left_press_inside_witness :
    twoChildNode.bounds.contains insideCursor = true ∧
    Toggler.on_event demoToggler (Event.Mouse (MouseEvent.ButtonPressed Button.Left))
        twoChildNode insideCursor [] =
      { status := Status.Captured, messages := [true], widget := demoToggler } := by
  refine ⟨by decide, ?_⟩
  have h := on_event_left_press_inside demoToggler twoChildNode insideCursor [] (by decide)
  simpa [demoToggler, Toggler.new] using h

/-- C2: any event that is not a left press inside the bounds — a left press
outside the bounds, or any other event kind at any cursor position — leaves
the message queue exactly as it was and returns `Ignored`. -/
theorem on_event_otherwise_ignored {M F S : Type} (t : Toggler M F S)
    (e : Event) (layout : Node) (cursor : Point) (messages : List M)
    (h : e = Event.Mouse (MouseEvent.ButtonPressed Button.Left) →
      layout.bounds.contains cursor = false) :
    t.on_event e layout cursor messages =
      { status := Status.Ignored, messages := messages, widget := t } := by
  cases e with
  | Mouse me =>
    cases me with
    | ButtonPressed b =>
      cases b with
      | Left => simp [Toggler.on_event, h rfl]
      | Right => rfl
      | Middle => rfl
      | Other code => rfl
    | CursorEntered => rfl
    | CursorLeft => rfl
    | CursorMoved p => rfl
    | ButtonReleased b => rfl
    | WheelScrolled dx dy => rfl
  | Keyboard code => rfl
  | Window code => rfl
  | Touch code => rfl

/-- Witness for C2: a left press outside bounds, and a keyboard event at a
cursor inside bounds, both leave the queue empty and are ignored. -/
theorem on_event_otherwise_ignored_witness :
    twoChildNode.bounds.contains outsideCursor = false ∧
    Toggler.on_event demoToggler (Event.Mouse (MouseEvent.ButtonPressed Button.Left))
        twoChildNode outsideCursor [] =
      { status := Status.Ignored, messages := [], widget := demoToggler } ∧
    Toggler.on_event demoToggler (Event.Keyboard 0) twoChildNode insideCursor [] =
      { status := Status.Ignored, messages := [], widget := demoToggler } :=
  ⟨by decide,
   on_event_otherwise_ignored demoToggler _ twoChildNode outsideCursor []
     (fun _ => by decide),
   on_event_otherwise_ignored demoToggler _ twoChildNode insideCursor []
     (fun h => nomatch h)⟩

/-- Counterexample for C3: at `size = 32768` the toggle-box child's width is
`(2 * 32768) % 65536 = 0`, not `2 × size = 65536`: the claim that the second
child always has width `2 × size` is false. -/
theorem layout_width_not_always_double_size_counterexample :
    ¬ (((Toggler.layout nullRenderer bigToggler demoLimits).children.getD 1
        defaultNode).bounds.width = 2 * (bigToggler.size : Int)) := by
  decide

/-- C3 (amended): layout always produces exactly two child boxes, and the
second (toggle-box) always has height `size` and width `(2 × size) mod 2^16`,
independent of label, renderer and outer limits; the width equals `2 × size`
whenever `size ≤ 32767` (beyond that the `u16` product wraps). -/
theorem layout_two_children_and_toggle_box_size {M F S : Type}
    (r : Renderer F S) (t : Toggler M F S) (limits : Limits) :
    (Toggler.layout r t limits).children.length = 2 ∧
    ((Toggler.layout r t limits).children.getD 1 defaultNode).bounds.height =
      (t.size : Int) ∧
    ((Toggler.layout r t limits).children.getD 1 defaultNode).bounds.width =
      (((2 * t.size) % 65536 : Nat) : Int) ∧
    (t.size ≤ 32767 →
      ((Toggler.layout r t limits).children.getD 1 defaultNode).bounds.width =
        2 * (t.size : Int)) := by
  refine ⟨by simp [Toggler.layout], by simp [Toggler.layout],
    by simp [Toggler.layout], ?_⟩
  intro h
  simp only [Toggler.layout, List.getD, List.get?, Option.getD]
  omega

/-- Witness for C3: the concrete toggler (default size 20) yields two
children with the toggle box exactly 40 wide and 20 high. -/
theorem layout_two_children_and_toggle_box_size_witness :
    (Toggler.layout nullRenderer demoToggler demoLimits).children.length = 2 ∧
    ((Toggler.layout nullRenderer demoToggler demoLimits).children.getD 1
        defaultNode).bounds.height = (demoToggler.size : Int) ∧
    demoToggler.size ≤ 32767 ∧
    ((Toggler.layout nullRenderer demoToggler demoLimits).children.getD 1
        defaultNode).bounds.width = 2 * (demoToggler.size : Int) :=
  ⟨(layout_two_children_and_toggle_box_size nullRenderer demoToggler
      demoLimits).1,
   (layout_two_children_and_toggle_box_size nullRenderer demoToggler
      demoLimits).2.1,
   by decide,
   (layout_two_children_and_toggle_box_size nullRenderer demoToggler
      demoLimits).2.2.2 (by decide)⟩

/-- C4: `hash_layout` feeds exactly the fixed type-discriminator and the
label, so two togglers with the same label contribute identically to the
hash, whatever their other fields are. -/
theorem hash_layout_depends_only_on_label {M F S M' F' S' : Type}
    (t1 : Toggler M F S) (t2 : Toggler M' F' S') (state : List HashInput)
    (h : t1.label = t2.label) :
    t1.hash_layout state = t2.hash_layout state ∧
    t1.hash_layout state =
      state ++ [HashInput.typeIdMarker, HashInput.stringVal t1.label] := by
  simp [Toggler.hash_layout, h]

/-- Witness for C4: two concrete togglers sharing a label but differing in
`is_active`, `size`, `spacing`, `width` and `text_size` hash identically. -/
theorem hash_layout_depends_only_on_label_witness :
    (Toggler.new nullRenderer false "same label" (fun b => b) :
        Toggler Bool Unit Unit).label =
      (((((Toggler.new nullRenderer true "same label" (fun _ => true)).set_size
            99).set_spacing 7).set_width Length.Shrink).set_text_size 11 :
        Toggler Bool Unit Unit).label ∧
    Toggler.hash_layout
        (Toggler.new nullRenderer false "same label" (fun b => b) :
          Toggler Bool Unit Unit) [] =
      Toggler.hash_layout
        (((((Toggler.new nullRenderer true "same label"
            (fun _ => true)).set_size 99).set_spacing 7).set_width
            Length.Shrink).set_text_size 11) [] :=
  ⟨rfl,
   (hash_layout_depends_only_on_label
     (Toggler.new nullRenderer false "same label" (fun b => b))
     (((((Toggler.new nullRenderer true "same label"
       (fun _ => true)).set_size 99).set_spacing 7).set_width
       Length.Shrink).set_text_size 11) [] rfl).1⟩

/-- C5: `on_event` never mutates the widget — every field is unchanged — and
repeating the identical call on the resulting widget yields the identical
result (identical status and identical appended messages). -/
theorem on_event_preserves_widget {M F S : Type} (t : Toggler M F S)
    (e : Event) (layout : Node) (cursor : Point) (messages : List M) :
    (t.on_event e layout cursor messages).widget = t ∧
    (t.on_event e layout cursor messages).widget.is_active = t.is_active ∧
    (t.on_event e layout cursor messages).widget.on_toggle = t.on_toggle ∧
    (t.on_event e layout cursor messages).widget.label = t.label ∧
    (t.on_event e layout cursor messages).widget.width = t.width ∧
    (t.on_event e layout cursor messages).widget.size = t.size ∧
    (t.on_event e layout cursor messages).widget.text_size = t.text_size ∧
    (t.on_event e layout cursor messages).widget.text_align = t.text_align ∧
    (t.on_event e layout cursor messages).widget.spacing = t.spacing ∧
    (t.on_event e layout cursor messages).widget.font = t.font ∧
    (t.on_event e layout cursor messages).widget.style = t.style ∧
    (t.on_event e layout cursor messages).widget.on_event e layout cursor
        messages =
      t.on_event e layout cursor messages := by
  have hw : (t.on_event e layout cursor messages).widget = t := by
    cases e with
    | Mouse me =>
      cases me with
      | ButtonPressed b =>
        cases b with
        | Left =>
          simp only [Toggler.on_event]
          split <;> rfl
        | Right => rfl
        | Middle => rfl
        | Other code => rfl
      | CursorEntered => rfl
      | CursorLeft => rfl
      | CursorMoved p => rfl
      | ButtonReleased b => rfl
      | WheelScrolled dx dy => rfl
    | Keyboard code => rfl
    | Window code => rfl
    | Touch code => rfl
  rw [hw]
  exact ⟨rfl, rfl, rfl, rfl, rfl, rfl, rfl, rfl, rfl, rfl, rfl, rfl⟩

/-- C6: `new(is_active, label, on_toggle)` stores exactly the given state,
label and callback, and fills in the documented defaults: `width = Fill`,
`size = DEFAULT_SIZE`, `text_size = none`, `text_align = none`,
`spacing = 0`, default font, default style. -/
theorem new_sets_defaults {M F S : Type} (r : Renderer F S) (a : Bool)
    (label : String) (f : Bool → M) :
    (Toggler.new r a label f).is_active = a ∧
    (Toggler.new r a label f).on_toggle = f ∧
    (Toggler.new r a label f).label = label ∧
    (Toggler.new r a label f).width = Length.Fill ∧
    (Toggler.new r a label f).size = r.DEFAULT_SIZE ∧
    (Toggler.new r a label f).text_size = none ∧
    (Toggler.new r a label f).text_align = none ∧
    (Toggler.new r a label f).spacing = 0 ∧
    (Toggler.new r a label f).font = r.defaultFont ∧
    (Toggler.new r a label f).style = r.defaultStyle :=
  ⟨rfl, rfl, rfl, rfl, rfl, rfl, rfl, rfl, rfl, rfl⟩

/-- C7: each fluent configuration operation sets exactly its own field to the
given value (`set_text_size` and `set_text_align` wrap it in `some`) and
leaves every other field unchanged. -/
theorem set_ops_update_exactly_one_field {M F S : Type} (t : Toggler M F S)
    (n m p : Nat) (w : Length) (al : HorizontalAlignment) (fo : F) (st : S) :
    ((t.set_size n).size = n ∧
     (t.set_size n).is_active = t.is_active ∧
     (t.set_size n).on_toggle = t.on_toggle ∧
     (t.set_size n).label = t.label ∧
     (t.set_size n).width = t.width ∧
     (t.set_size n).text_size = t.text_size ∧
     (t.set_size n).text_align = t.text_align ∧
     (t.set_size n).spacing = t.spacing ∧
     (t.set_size n).font = t.font ∧
     (t.set_size n).style = t.style) ∧
    ((t.set_width w).width = w ∧
     (t.set_width w).is_active = t.is_active ∧
     (t.set_width w).on_toggle = t.on_toggle ∧
     (t.set_width w).label = t.label ∧
     (t.set_width w).size = t.size ∧
     (t.set_width w).text_size = t.text_size ∧
     (t.set_width w).text_align = t.text_align ∧
     (t.set_width w).spacing = t.spacing ∧
     (t.set_width w).font = t.font ∧
     (t.set_width w).style = t.style) ∧
    ((t.set_text_size m).text_size = some m ∧
     (t.set_text_size m).is_active = t.is_active ∧
     (t.set_text_size m).on_toggle = t.on_toggle ∧
     (t.set_text_size m).label = t.label ∧
     (t.set_text_size m).width = t.width ∧
     (t.set_text_size m).size = t.size ∧
     (t.set_text_size m).text_align = t.text_align ∧
     (t.set_text_size m).spacing = t.spacing ∧
     (t.set_text_size m).font = t.font ∧
     (t.set_text_size m).style = t.style) ∧
    ((t.set_text_align al).text_align = some al ∧
     (t.set_text_align al).is_active = t.is_active ∧
     (t.set_text_align al).on_toggle = t.on_toggle ∧
     (t.set_text_align al).label = t.label ∧
     (t.set_text_align al).width = t.width ∧
     (t.set_text_align al).size = t.size ∧
     (t.set_text_align al).text_size = t.text_size ∧
     (t.set_text_align al).spacing = t.spacing ∧
     (t.set_text_align al).font = t.font ∧
     (t.set_text_align al).style = t.style) ∧
    ((t.set_spacing p).spacing = p ∧
     (t.set_spacing p).is_active = t.is_active ∧
     (t.set_spacing p).on_toggle = t.on_toggle ∧
     (t.set_spacing p).label = t.label ∧
     (t.set_spacing p).width = t.width ∧
     (t.set_spacing p).size = t.size ∧
     (t.set_spacing p).text_size = t.text_size ∧
     (t.set_spacing p).text_align = t.text_align ∧
     (t.set_spacing p).font = t.font ∧
     (t.set_spacing p).style = t.style) ∧
    ((t.set_font fo).font = fo ∧
     (t.set_font fo).is_active = t.is_active ∧
     (t.set_font fo).on_toggle = t.on_toggle ∧
     (t.set_font fo).label = t.label ∧
     (t.set_font fo).width = t.width ∧
     (t.set_font fo).size = t.size ∧
     (t.set_font fo).text_size = t.text_size ∧
     (t.set_font fo).text_align = t.text_align ∧
     (t.set_font fo).spacing = t.spacing ∧
     (t.set_font fo).style = t.style) ∧
    ((t.set_style st).style = st ∧
     (t.set_style st).is_active = t.is_active ∧
     (t.set_style st).on_toggle = t.on_toggle ∧
     (t.set_style st).label = t.label ∧
     (t.set_style st).width = t.width ∧
     (t.set_style st).size = t.size ∧
     (t.set_style st).text_size = t.text_size ∧
     (t.set_style st).text_align = t.text_align ∧
     (t.set_style st).spacing = t.spacing ∧
     (t.set_style st).font = t.font) := by
  refine ⟨⟨rfl, rfl, rfl, rfl, rfl, rfl, rfl, rfl, rfl, rfl⟩,
    ⟨rfl, rfl, rfl, rfl, rfl, rfl, rfl, rfl, rfl, rfl⟩,
    ⟨rfl, rfl, rfl, rfl, rfl, rfl, rfl, rfl, rfl, rfl⟩,
    ⟨rfl, rfl, rfl, rfl, rfl, rfl, rfl, rfl, rfl, rfl⟩,
    ⟨rfl, rfl, rfl, rfl, rfl, rfl, rfl, rfl, rfl, rfl⟩,
    ⟨rfl, rfl, rfl, rfl, rfl, rfl, rfl, rfl, rfl, rfl⟩,
    ⟨rfl, rfl, rfl, rfl, rfl, rfl, rfl, rfl, rfl, rfl⟩⟩

/-- C8: on a layout with (at least) two children, `draw` passes the *outer*
bounds' hit test as `is_mouse_over` to the toggle renderer, and passes the
second child's bounds as the bounds to draw the track in; the label is drawn
with the first child's bounds, no explicit color, and vertical centering. -/
theorem draw_mouse_over_uses_outer_bounds {M F S D : Type}
    (r : Renderer F S) (t : Toggler M F S) (defaults : D)
    (bounds : Rectangle) (l0 l1 : Node) (rest : List Node)
    (cursor : Point) (viewport : Rectangle) :
    Toggler.draw r t defaults ⟨bounds, l0 :: l1 :: rest⟩ cursor viewport =
      some (Output.toggler l1.bounds t.is_active (bounds.contains cursor)
        (Output.text defaults l0.bounds t.label
          (t.text_size.getD r.default_size) t.font none
          (t.text_align.getD HorizontalAlignment.Left)
          VerticalAlignment.Center)
        t.style) :=
  rfl

/-- C9: `draw` on a layout with fewer than two children hits the `unwrap`
panic (modelled as `none`); with at least two children the panic branch is
unreachable and `draw` returns a result. -/
theorem draw_requires_two_children {M F S D : Type} (r : Renderer F S)
    (t : Toggler M F S) (defaults : D) (layout : Node) (cursor : Point)
    (viewport : Rectangle) :
    (layout.children.length < 2 →
      Toggler.draw r t defaults layout cursor viewport = none) ∧
    (2 ≤ layout.children.length →
      (Toggler.draw r t defaults layout cursor viewport).isSome = true) := by
  obtain ⟨bounds, children⟩ := layout
  match children with
  | [] => exact ⟨fun _ => rfl, fun h => absurd h (by simp)⟩
  | [a] => exact ⟨fun _ => rfl, fun h => absurd h (by simp)⟩
  | a :: b :: rest =>
    exact ⟨fun h => absurd h (by simp), fun _ => rfl⟩

/-- Witness for C9: a childless node makes `draw` return `none`; the concrete
two-children node makes it return a result. -/
theorem draw_requires_two_children_witness :
    ((Node.mk ⟨0, 0, 10, 10⟩ []).children.length < 2 ∧
      Toggler.draw nullRenderer demoToggler () (Node.mk ⟨0, 0, 10, 10⟩ [])
        insideCursor ⟨0, 0, 0, 0⟩ = none) ∧
    (2 ≤ twoChildNode.children.length ∧
      (Toggler.draw nullRenderer demoToggler () twoChildNode insideCursor
        ⟨0, 0, 0, 0⟩).isSome = true) :=
  ⟨⟨by decide,
    (draw_requires_two_children nullRenderer demoToggler ()
      (Node.mk ⟨0, 0, 10, 10⟩ []) insideCursor ⟨0, 0, 0, 0⟩).1 (by decide)⟩,
   ⟨by decide,
    (draw_requires_two_children nullRenderer demoToggler () twoChildNode
      insideCursor ⟨0, 0, 0, 0⟩).2 (by decide)⟩⟩

/-- C10: the toggle-box width is the `u16` product `(2 * size) % 2^16`: it
equals `2 × size` exactly when `size ≤ 32767`, and differs from `2 × size`
for every `u16` size above that, so the 2:1 track proportion only holds up
to 32767. -/
theorem layout_toggle_box_width_wraps_u16 {M F S : Type} (r : Renderer F S)
    (t : Toggler M F S) (limits : Limits) (hlt : t.size < 65536) :
    ((Toggler.layout r t limits).children.getD 1 defaultNode).bounds.width =
      (((2 * t.size) % 65536 : Nat) : Int) ∧
    (t.size ≤ 32767 →
      ((Toggler.layout r t limits).children.getD 1 defaultNode).bounds.width =
        2 * (t.size : Int)) ∧
    (32767 < t.size →
      ((Toggler.layout r t limits).children.getD 1 defaultNode).bounds.width ≠
        2 * (t.size : Int)) := by
  refine ⟨by simp [Toggler.layout], ?_, ?_⟩ <;>
    · intro h
      simp only [Toggler.layout, List.getD, List.get?, Option.getD]
      omega

/-- Witness for C10: at the concrete size 32768 the toggle-box width is not
`2 × size` (it wraps to 0). -/
theorem layout_toggle_box_width_wraps_u16_witness :
    bigToggler.size < 65536 ∧ 32767 < bigToggler.size ∧
    ((Toggler.layout nullRenderer bigToggler demoLimits).children.getD 1
        defaultNode).bounds.width ≠ 2 * (bigToggler.size : Int) :=
  ⟨by decide, by decide,
   (layout_toggle_box_width_wraps_u16 nullRenderer bigToggler demoLimits
     (by decide)).2.2 (by decide)⟩
